import Mathlib

/-!
Shallow embedding of the content-intelligence email-generation workflow:
the LangGraph state record (src/models/state.py), the intent summarizer
(src/agents/matching/intent_summarizer.py), the asset ranker
(src/agents/matching/asset_ranker.py) and the graph routing
(src/graphs/email_generation.py).

Modelling conventions:
- TypedDict records become structures; a key typed `X | None` becomes
  `Option X`.
- The raw prospect-attribute dictionary (`prospect_data`, a Python
  `dict[str, Any]`) is embedded as an association list from strings to
  strings, since the code only ever reads string-valued keys from it
  (`service_area`, `industry`); key presence is first-match lookup.
- Python float fields (`score`, `confidence`) hold only exactly
  representable literal values in this code (85.0, 0.75, ...), so they
  are embedded as rationals, which is exact for every value and
  comparison the code performs.
- Each graph node returns a partial update dictionary that LangGraph
  merges into the state; a node is embedded as a function from state to
  state that changes exactly the keys of its returned dictionary.
-/

/-- Content asset with relevance score (RankedAsset in src/models/state.py). -/
structure RankedAsset where
  asset_id : Nat
  url : String
  title : String
  room : String
  score : Rat
  match_reasons : List String
  deriving DecidableEq

/-- Intent profile extracted from prospect data (ProspectIntent in src/models/state.py). -/
structure ProspectIntent where
  prospect_id : Nat
  service_area : Option String
  pain_points : List String
  confidence : Rat
  deriving DecidableEq

/-- Raw prospect attributes: string-keyed mapping embedded as an association list. -/
abbrev ProspectData := List (String × String)

/-- First-match lookup in a prospect-attribute mapping; `none` means the key is absent. -/
def lookupAttr (d : ProspectData) (key : String) : Option String :=
  (d.find? (fun kv => kv.1 == key)).map (fun kv => kv.2)

/-- Shared workflow state (AgentState in src/models/state.py). -/
structure AgentState where
  prospect_id : Nat
  campaign_id : Nat
  prospect_data : Option ProspectData
  intent_profile : Option ProspectIntent
  ranked_assets : List RankedAsset
  selected_content : Option RankedAsset
  email_context : Option (List (String × String))
  generated_email : Option String
  error : Option String
  requires_human_approval : Bool
  deriving DecidableEq

/-- create_initial_state from src/models/state.py: required inputs set, all derived fields null or empty. -/
def create_initial_state (prospect_id campaign_id : Nat) : AgentState :=
  { prospect_id := prospect_id
    campaign_id := campaign_id
    prospect_data := none
    intent_profile := none
    ranked_assets := []
    selected_content := none
    email_context := none
    generated_email := none
    error := none
    requires_human_approval := false }

/-- Boolean prefix test on character lists (needle, haystack). -/
def isPrefixList : List Char → List Char → Bool
  | [], _ => true
  | _ :: _, [] => false
  | a :: as, b :: bs => a == b && isPrefixList as bs

/-- Boolean substring test on character lists (haystack, needle). -/
def containsSub (hay needle : List Char) : Bool :=
  match hay with
  | [] => needle.isEmpty
  | _ :: t => isPrefixList needle hay || containsSub t needle

/-- Python substring membership `needle in hay` on strings. -/
def strContains (hay needle : String) : Bool :=
  containsSub hay.toList needle.toList

/-- ASCII lowercase of one character, as Python str.lower acts on ASCII text. -/
def charLower (c : Char) : Char :=
  if 65 ≤ c.toNat ∧ c.toNat ≤ 90 then Char.ofNat (c.toNat + 32) else c

/-- Python str.lower on the ASCII strings this code handles. -/
def strToLower (s : String) : String := String.mk (s.toList.map charLower)

/-- The weight table SCORING_WEIGHTS of src/agents/matching/asset_ranker.py. -/
def SCORING_WEIGHTS : List (String × Nat) :=
  [("service_area", 25), ("persona", 20), ("industry", 20), ("format", 10), ("freshness", 5)]

/-- Weight of a named scoring criterion, `none` when the name is not a defined criterion. -/
def weightOf (name : String) : Option Nat :=
  (SCORING_WEIGHTS.find? (fun kv => kv.1 == name)).map (fun kv => kv.2)

/-- The source function extract_service_area of src/agents/matching/intent_summarizer.py. -/
def extract_service_area : Option ProspectData → Option String
  | none => some "cloud-migration"
  | some d =>
    match lookupAttr d "service_area" with
    | some v => some v
    | none =>
      let industry := strToLower ((lookupAttr d "industry").getD "")
      if strContains industry "health" then some "data-analytics"
      else if strContains industry "finance" then some "cloud-migration"
      else some "ai-development"

/-- The source function extract_pain_points of src/agents/matching/intent_summarizer.py. -/
def extract_pain_points : Option ProspectData → List String
  | none =>
    ["POC projects not reaching production",
     "Difficulty connecting AI to business value"]
  | some d =>
    let industry := strToLower ((lookupAttr d "industry").getD "")
    if strContains industry "health" then
      ["Data silos preventing analytics adoption",
       "Compliance concerns with cloud migration"]
    else if strContains industry "finance" then
      ["Legacy systems limiting innovation",
       "High maintenance costs for on-premise infrastructure"]
    else
      ["AI experiments stuck in POC phase",
       "Unclear roadmap for modernization"]

/-- The analyze_intent node of src/agents/matching/intent_summarizer.py:
its returned update dictionary holds exactly the key intent_profile,
with confidence the fixed constant 0.75. -/
def analyze_intent (state : AgentState) : AgentState :=
  { state with
    intent_profile := some
      { prospect_id := state.prospect_id
        service_area := extract_service_area state.prospect_data
        pain_points := extract_pain_points state.prospect_data
        confidence := 0.75 } }

/-- Mock asset 101 of the ai-development library entry. -/
def asset101 : RankedAsset :=
  { asset_id := 101
    url := "https://example.com/blog/poc-limbo"
    title := "Are Your Gen AI Experiments Stuck in POC Limbo?"
    room := "problem"
    score := 85
    match_reasons := ["service_area", "pain_point_match"] }

/-- Mock asset 102 of the ai-development library entry. -/
def asset102 : RankedAsset :=
  { asset_id := 102
    url := "https://example.com/blog/ai-roadmap"
    title := "Building an AI Roadmap: 5 Priorities for Getting Started"
    room := "solution"
    score := 72
    match_reasons := ["service_area", "industry_match"] }

/-- Mock asset 201 of the cloud-migration library entry. -/
def asset201 : RankedAsset :=
  { asset_id := 201
    url := "https://example.com/blog/data-center-budget"
    title := "Is Your Data Center Draining Your Budget?"
    room := "problem"
    score := 88
    match_reasons := ["service_area", "pain_point_match", "persona"] }

/-- Mock asset 202 of the cloud-migration library entry. -/
def asset202 : RankedAsset :=
  { asset_id := 202
    url := "https://example.com/blog/migration-roadmap"
    title := "Understanding Your Migration Roadmap and TCO"
    room := "solution"
    score := 70
    match_reasons := ["service_area"] }

/-- Mock asset 301 of the data-analytics library entry. -/
def asset301 : RankedAsset :=
  { asset_id := 301
    url := "https://example.com/blog/data-silos"
    title := "Drowning in Data Silos? 7 Red Flags to Watch For"
    room := "problem"
    score := 82
    match_reasons := ["service_area", "industry_match"] }

/-- Mock asset 302 of the data-analytics library entry. -/
def asset302 : RankedAsset :=
  { asset_id := 302
    url := "https://example.com/blog/lakehouse-comparison"
    title := "Data Lakehouse vs. Traditional Warehousing: Pros and Cons"
    room := "solution"
    score := 68
    match_reasons := ["service_area"] }

/-- The mock_library entry for service area ai-development. -/
def ai_development_assets : List RankedAsset := [asset101, asset102]

/-- The mock_library entry for service area cloud-migration. -/
def cloud_migration_assets : List RankedAsset := [asset201, asset202]

/-- The mock_library entry for service area data-analytics. -/
def data_analytics_assets : List RankedAsset := [asset301, asset302]

/-- The keys of the mock_library dictionary. -/
def mock_library_keys : List String :=
  ["ai-development", "cloud-migration", "data-analytics"]

/-- The source function get_mock_assets of src/agents/matching/asset_ranker.py:
dictionary lookup `mock_library.get(service_area, mock_library["ai-development"])`.
A `none` service area is not a key of the dictionary, so it also yields the
default entry. The prospect_data argument is accepted and, as in the source,
never used. -/
def get_mock_assets (service_area : Option String) (_prospect_data : ProspectData) : List RankedAsset :=
  match service_area with
  | none => ai_development_assets
  | some sa =>
    if sa = "ai-development" then ai_development_assets
    else if sa = "cloud-migration" then cloud_migration_assets
    else if sa = "data-analytics" then data_analytics_assets
    else ai_development_assets

/-- The rank_assets node of src/agents/matching/asset_ranker.py. With a null
intent profile it returns the update `ranked_assets = [], selected_content = None`;
otherwise it looks up the mock library by the profile service area and selects
`ranked_assets[0] if ranked_assets else None`. (The source reads the service
area with `intent_profile.get("service_area", "general")`; the key is always
present in a profile the summarizer builds, and the string "general" is not a
library key, so the structure embedding with an Option-valued field is exact.) -/
def rank_assets (state : AgentState) : AgentState :=
  match state.intent_profile with
  | none => { state with ranked_assets := [], selected_content := none }
  | some profile =>
    let ranked := get_mock_assets profile.service_area (state.prospect_data.getD [])
    { state with ranked_assets := ranked, selected_content := ranked.head? }

/-- Python truthiness of an optional string: None and the empty string are falsy. -/
def pyTruthy : Option String → Bool
  | none => false
  | some s => s != ""

/-- The routing function route_after_intent of src/graphs/email_generation.py:
`if state.get("error"): handle_error; if state.get("intent_profile") is None:
handle_error; else rank_assets`. -/
def route_after_intent (state : AgentState) : String :=
  if pyTruthy state.error then "handle_error"
  else
    match state.intent_profile with
    | none => "handle_error"
    | some _ => "rank_assets"

/-- The handle_error node of src/graphs/email_generation.py: its returned
update dictionary holds exactly the key requires_human_approval. -/
def handle_error (state : AgentState) : AgentState :=
  { state with requires_human_approval := true }

/-- One full pass of the compiled graph of src/graphs/email_generation.py:
entry node analyze_intent, then the conditional edge route_after_intent,
then the chosen terminal node. -/
def run_workflow (state : AgentState) : AgentState :=
  let s1 := analyze_intent state
  if route_after_intent s1 = "handle_error" then handle_error s1 else rank_assets s1

/-- Spec-side predicate: `sel` is the top choice of `l`, that is the
highest-scoring element with ties broken by lowest asset id, and null
exactly when `l` is empty. -/
def topChoice (sel : Option RankedAsset) (l : List RankedAsset) : Prop :=
  match sel with
  | none => l = []
  | some a => a ∈ l ∧ ∀ b ∈ l, b.score < a.score ∨ (b.score = a.score ∧ a.asset_id ≤ b.asset_id)

/-- Spec-side predicate: sorted descending by score with ties in ascending asset id order. -/
def rankedSorted (l : List RankedAsset) : Prop :=
  List.Pairwise (fun a b => b.score < a.score ∨ (b.score = a.score ∧ a.asset_id < b.asset_id)) l

/-- The mock prospect record that test_workflow.py and run_email_generation
attach to the initial state: industry Healthcare, current room problem. -/
def demo_prospect_data : ProspectData :=
  [("id", "45"), ("campaign_id", "1"), ("current_room", "problem"),
   ("lead_score", "35"), ("company_name", "Acme Health Systems"),
   ("contact_name", "Sarah Johnson"), ("job_title", "VP of Operations"),
   ("industry", "Healthcare"), ("employee_count", "1001-5000")]

/-- The initial state of the repository test run: create_initial_state(45, 1)
with the mock prospect record attached. -/
def demo_state : AgentState :=
  { create_initial_state 45 1 with prospect_data := some demo_prospect_data }

/-- A workflow state holding an intent profile for the ai-development service area. -/
def ai_profile : ProspectIntent :=
  { prospect_id := 45
    service_area := some "ai-development"
    pain_points := ["AI experiments stuck in POC phase", "Unclear roadmap for modernization"]
    confidence := 0.75 }

/-- Initial state carrying the ai-development intent profile. -/
def ai_profile_state : AgentState :=
  { create_initial_state 45 1 with intent_profile := some ai_profile }

/-- An intent profile requesting a service area absent from the mock library. -/
def quantum_profile : ProspectIntent :=
  { prospect_id := 45
    service_area := some "quantum-computing"
    pain_points := []
    confidence := 0.75 }

/-- Initial state carrying the unknown-service-area profile. -/
def quantum_state : AgentState :=
  { create_initial_state 45 1 with intent_profile := some quantum_profile }

/-- A state whose error field holds the empty string: present but falsy in Python. -/
def empty_error_state : AgentState :=
  { create_initial_state 7 2 with error := some "" }

instance topChoiceDecidable (sel : Option RankedAsset) (l : List RankedAsset) :
    Decidable (topChoice sel l) :=
  match sel with
  | none => inferInstanceAs (Decidable (l = []))
  | some a =>
    inferInstanceAs
      (Decidable (a ∈ l ∧ ∀ b ∈ l, b.score < a.score ∨ (b.score = a.score ∧ a.asset_id ≤ b.asset_id)))

instance rankedSortedDecidable (l : List RankedAsset) : Decidable (rankedSorted l) :=
  inferInstanceAs
    (Decidable (List.Pairwise
      (fun a b : RankedAsset => b.score < a.score ∨ (b.score = a.score ∧ a.asset_id < b.asset_id)) l))

/-- Helper: the ranker output list is one of the three mock library entries,
whatever key is requested. -/
theorem get_mock_assets_cases (sa : Option String) (pd : ProspectData) :
    get_mock_assets sa pd = ai_development_assets ∨
    get_mock_assets sa pd = cloud_migration_assets ∨
    get_mock_assets sa pd = data_analytics_assets := by
  rcases sa with _ | s
  · exact Or.inl rfl
  · by_cases h1 : s = "ai-development"
    · simp [get_mock_assets, h1]
    · by_cases h2 : s = "cloud-migration"
      · simp [get_mock_assets, h1, h2]
      · by_cases h3 : s = "data-analytics"
        · simp [get_mock_assets, h1, h2, h3]
        · simp [get_mock_assets, h1, h2, h3]

/-- Helper: the unused prospect-data argument of get_mock_assets never changes its result. -/
theorem get_mock_assets_ignores_data (sa : Option String) (pd1 pd2 : ProspectData) :
    get_mock_assets sa pd1 = get_mock_assets sa pd2 := rfl

/-- Helper: the ranker writes one of four concrete lists and always selects its head. -/
theorem rank_assets_cases (s : AgentState) :
    ((rank_assets s).ranked_assets = [] ∨
     (rank_assets s).ranked_assets = ai_development_assets ∨
     (rank_assets s).ranked_assets = cloud_migration_assets ∨
     (rank_assets s).ranked_assets = data_analytics_assets) ∧
    (rank_assets s).selected_content = (rank_assets s).ranked_assets.head? := by
  rcases hp : s.intent_profile with _ | p
  · exact ⟨Or.inl (by simp [rank_assets, hp]), by simp [rank_assets, hp]⟩
  · constructor
    · exact Or.inr (by simpa [rank_assets, hp] using
        get_mock_assets_cases p.service_area (s.prospect_data.getD []))
    · simp [rank_assets, hp]

/-- Helper: the selection and ordering invariant of every ranker output. -/
theorem rank_invariant (s : AgentState) :
    ((rank_assets s).selected_content = none ↔ (rank_assets s).ranked_assets = []) ∧
    rankedSorted (rank_assets s).ranked_assets ∧
    topChoice (rank_assets s).selected_content (rank_assets s).ranked_assets := by
  obtain ⟨hc, hsel⟩ := rank_assets_cases s
  rcases hc with h | h | h | h <;> rw [hsel, h] <;> decide

/-- Helper: on any properly initialized state the graph takes the ranking branch. -/
theorem run_workflow_initial (pid cid : Nat) (pd : Option ProspectData) :
    run_workflow { create_initial_state pid cid with prospect_data := pd } =
      rank_assets (analyze_intent { create_initial_state pid cid with prospect_data := pd }) := rfl

/-- C1: the claim states that rank_assets returns only assets whose room
equals the prospect's current buyer-journey room, as a mandatory hard
filter. On the repository's own test input (prospect 45, industry
Healthcare, current room "problem") the workflow returns asset 302 whose
room is "solution": no room filter exists in the code. -/
theorem C1_room_filter_not_applied :
    lookupAttr demo_prospect_data "current_room" = some "problem" ∧
    asset302 ∈ (run_workflow demo_state).ranked_assets ∧
    asset302.room = "solution" := by
  decide

/-- C2: the claim states that every returned score is the sum of the
SCORING_WEIGHTS entries named in match_reasons, that every reason is a
defined criterion, and that scores never exceed 80. The ranker output for
the ai-development area contains asset 101 with hardcoded score 85 > 80
and the undefined reason name "pain_point_match", while the defined
weights do sum to 80. -/
theorem C2_score_not_weight_sum :
    asset101 ∈ (rank_assets ai_profile_state).ranked_assets ∧
    asset101.match_reasons = ["service_area", "pain_point_match"] ∧
    weightOf "pain_point_match" = none ∧
    (SCORING_WEIGHTS.map (fun kv => kv.2)).sum = 80 ∧
    asset101.score = 85 ∧ (80 : Rat) < asset101.score := by
  decide

/-- C3: every ranker output has a null selection exactly when the ranked
list is empty, the ranked list is sorted descending by score with ties in
ascending asset id order, and the selection is the highest-scoring element
with ties broken by lowest asset id; the same holds for the final state of
a workflow run started from create_initial_state with any attached
prospect data. -/
theorem C3_selection_and_order (s : AgentState) (pid cid : Nat) (pd : Option ProspectData) :
    (((rank_assets s).selected_content = none ↔ (rank_assets s).ranked_assets = []) ∧
     rankedSorted (rank_assets s).ranked_assets ∧
     topChoice (rank_assets s).selected_content (rank_assets s).ranked_assets) ∧
    (rankedSorted (run_workflow { create_initial_state pid cid with prospect_data := pd }).ranked_assets ∧
     topChoice (run_workflow { create_initial_state pid cid with prospect_data := pd }).selected_content
       (run_workflow { create_initial_state pid cid with prospect_data := pd }).ranked_assets) := by
  refine ⟨rank_invariant s, ?_⟩
  rw [run_workflow_initial]
  exact ⟨(rank_invariant _).2.1, (rank_invariant _).2.2⟩

/-- C4 counterexample: a state whose error field is set (to the empty
string) still routes to rank_assets after intent analysis, because the
code tests Python truthiness of the error value, not its presence; so the
claimed biconditional with "error field is set" fails. -/
theorem C4_counterexample :
    (analyze_intent empty_error_state).error = some "" ∧
    (analyze_intent empty_error_state).intent_profile ≠ none ∧
    route_after_intent (analyze_intent empty_error_state) = "rank_assets" := by
  decide

/-- C4 amended: the route after intent analysis is ERROR_HANDLING exactly
when the error field holds a non-empty string or the intent profile is
null, and otherwise ASSET_RANKING; in particular a state with a null
intent profile never routes to ASSET_RANKING. -/
theorem C4_route_guard (s : AgentState) :
    (route_after_intent s = "handle_error" ↔
      ((∃ e, s.error = some e ∧ e ≠ "") ∨ s.intent_profile = none)) ∧
    (route_after_intent s = "rank_assets" ↔
      ¬ ((∃ e, s.error = some e ∧ e ≠ "") ∨ s.intent_profile = none)) ∧
    (s.intent_profile = none → route_after_intent s ≠ "rank_assets") := by
  rcases he : s.error with _ | e
  · rcases hp : s.intent_profile with _ | p <;>
      simp [route_after_intent, pyTruthy, he, hp]
  · by_cases hee : e = ""
    · subst hee
      rcases hp : s.intent_profile with _ | p <;>
        simp [route_after_intent, pyTruthy, he, hp]
    · rcases hp : s.intent_profile with _ | p <;>
        simp [route_after_intent, pyTruthy, he, hp, hee]

/-- C4 witness: the amended guard applied to a concrete state with a null
intent profile. -/
theorem C4_route_guard_witness :
    route_after_intent (create_initial_state 1 2) ≠ "rank_assets" :=
  (C4_route_guard (create_initial_state 1 2)).2.2 rfl

/-- C5: the intent builder is total in the embedding (it always produces a
profile), and on absent prospect attributes it returns the canonical
fallback service area cloud-migration, exactly the two canned pain-point
strings, and the fixed confidence constant 0.75. -/
theorem C5_intent_builder_total_defaults (s : AgentState) :
    (analyze_intent s).intent_profile ≠ none ∧
    (s.prospect_data = none →
      (analyze_intent s).intent_profile = some
        { prospect_id := s.prospect_id
          service_area := some "cloud-migration"
          pain_points :=
            ["POC projects not reaching production",
             "Difficulty connecting AI to business value"]
          confidence := 0.75 }) := by
  constructor
  · exact fun hcon => Option.noConfusion hcon
  · intro h
    simp only [analyze_intent, h]
    rfl

/-- C5 witness: the default profile on the concrete initial state, whose
prospect data is absent. -/
theorem C5_intent_builder_witness :
    (analyze_intent (create_initial_state 45 1)).intent_profile = some
      { prospect_id := 45
        service_area := some "cloud-migration"
        pain_points :=
          ["POC projects not reaching production",
           "Difficulty connecting AI to business value"]
        confidence := 0.75 } :=
  (C5_intent_builder_total_defaults (create_initial_state 45 1)).2 rfl

/-- C6: with attributes present, an explicit service-area attribute is used
verbatim; otherwise the service area is derived from the lowercased
industry text by substring tests, "health" first giving data-analytics,
then "finance" giving cloud-migration, and anything else giving the
default ai-development. -/
theorem C6_service_area_derivation (d : ProspectData) :
    (∀ v, lookupAttr d "service_area" = some v → extract_service_area (some d) = some v) ∧
    (lookupAttr d "service_area" = none →
      strContains (strToLower ((lookupAttr d "industry").getD "")) "health" = true →
      extract_service_area (some d) = some "data-analytics") ∧
    (lookupAttr d "service_area" = none →
      strContains (strToLower ((lookupAttr d "industry").getD "")) "health" = false →
      strContains (strToLower ((lookupAttr d "industry").getD "")) "finance" = true →
      extract_service_area (some d) = some "cloud-migration") ∧
    (lookupAttr d "service_area" = none →
      strContains (strToLower ((lookupAttr d "industry").getD "")) "health" = false →
      strContains (strToLower ((lookupAttr d "industry").getD "")) "finance" = false →
      extract_service_area (some d) = some "ai-development") := by
  refine ⟨?_, ?_, ?_, ?_⟩
  · intro v hv
    simp [extract_service_area, hv]
  · intro h1 h2
    simp [extract_service_area, h1, h2]
  · intro h1 h2 h3
    simp [extract_service_area, h1, h2, h3]
  · intro h1 h2 h3
    simp [extract_service_area, h1, h2, h3]

/-- C6 witness: industry Healthcare, no explicit service area, resolves to
data-analytics. -/
theorem C6_service_area_witness :
    extract_service_area (some [("industry", "Healthcare")]) = some "data-analytics" :=
  (C6_service_area_derivation [("industry", "Healthcare")]).2.1 (by decide) (by decide)

/-- C7: when the profile requests a service area that is not a key of the
mock library, the ranker returns the designated default ai-development
subset, which is not empty. -/
theorem C7_unknown_area_fallback (s : AgentState) (p : ProspectIntent)
    (hp : s.intent_profile = some p)
    (hk : ∀ x, p.service_area = some x → x ∉ mock_library_keys) :
    (rank_assets s).ranked_assets = ai_development_assets ∧
    (rank_assets s).ranked_assets ≠ [] := by
  have hg : get_mock_assets p.service_area (s.prospect_data.getD []) = ai_development_assets := by
    rcases hsa : p.service_area with _ | x
    · rfl
    · have hx := hk x hsa
      simp only [mock_library_keys, List.mem_cons, List.not_mem_nil, or_false, not_or] at hx
      obtain ⟨h1, h2, h3⟩ := hx
      simp [get_mock_assets, h1, h2, h3]
  constructor
  · simp [rank_assets, hp, hg]
  · simp [rank_assets, hp, hg, ai_development_assets]

/-- C7 witness: the fallback on a concrete profile requesting the unknown
area quantum-computing. -/
theorem C7_unknown_area_witness :
    (rank_assets quantum_state).ranked_assets = ai_development_assets ∧
    (rank_assets quantum_state).ranked_assets ≠ [] :=
  C7_unknown_area_fallback quantum_state quantum_profile rfl
    (fun x hx => by
      simp only [quantum_profile, Option.some.injEq] at hx
      subst hx
      decide)

/-- C8: handle_error sets requires_human_approval to true and leaves every
other field of the state unchanged; in particular the error field is not
cleared and no content selection is written. -/
theorem C8_handle_error_frame (s : AgentState) :
    (handle_error s).requires_human_approval = true ∧
    (handle_error s).error = s.error ∧
    (handle_error s).selected_content = s.selected_content ∧
    (handle_error s).ranked_assets = s.ranked_assets ∧
    (handle_error s).intent_profile = s.intent_profile ∧
    (handle_error s).prospect_data = s.prospect_data ∧
    (handle_error s).prospect_id = s.prospect_id ∧
    (handle_error s).campaign_id = s.campaign_id ∧
    (handle_error s).email_context = s.email_context ∧
    (handle_error s).generated_email = s.generated_email :=
  ⟨rfl, rfl, rfl, rfl, rfl, rfl, rfl, rfl, rfl, rfl⟩

/-- C9: from any initial state built by create_initial_state (with any
attached prospect data), the error branch is unreachable: the initial
error is null, analyze_intent leaves it null and always writes a profile,
the route is always rank_assets, and the run ends in the ranking node. -/
theorem C9_error_branch_unreachable (pid cid : Nat) (pd : Option ProspectData) :
    (create_initial_state pid cid).error = none ∧
    (analyze_intent { create_initial_state pid cid with prospect_data := pd }).error = none ∧
    (analyze_intent { create_initial_state pid cid with prospect_data := pd }).intent_profile ≠ none ∧
    route_after_intent (analyze_intent { create_initial_state pid cid with prospect_data := pd }) =
      "rank_assets" ∧
    run_workflow { create_initial_state pid cid with prospect_data := pd } =
      rank_assets (analyze_intent { create_initial_state pid cid with prospect_data := pd }) :=
  ⟨rfl, rfl, fun hcon => Option.noConfusion hcon, rfl, rfl⟩

/-- C10: the ranker output is independent of the prospect attributes: any
two states whose profiles agree on the service area (whatever their
prospect data, current room, persona or format preference) receive the
same ranked list and the same selection. -/
theorem C10_prospect_data_irrelevant (s1 s2 : AgentState) (p q : ProspectIntent)
    (h1 : s1.intent_profile = some p) (h2 : s2.intent_profile = some q)
    (hsa : p.service_area = q.service_area) :
    (rank_assets s1).ranked_assets = (rank_assets s2).ranked_assets ∧
    (rank_assets s1).selected_content = (rank_assets s2).selected_content := by
  have hg : get_mock_assets p.service_area (s1.prospect_data.getD []) =
      get_mock_assets q.service_area (s2.prospect_data.getD []) := by
    rw [hsa]
    exact get_mock_assets_ignores_data q.service_area _ _
  constructor
  · simp [rank_assets, h1, h2, hg]
  · simp [rank_assets, h1, h2, hg]

/-- C10 witness: attaching the full demo prospect record changes neither
the ranked list nor the selection for a fixed profile. -/
theorem C10_prospect_data_witness :
    (rank_assets ai_profile_state).ranked_assets =
      (rank_assets { ai_profile_state with prospect_data := some demo_prospect_data }).ranked_assets ∧
    (rank_assets ai_profile_state).selected_content =
      (rank_assets { ai_profile_state with prospect_data := some demo_prospect_data }).selected_content :=
  C10_prospect_data_irrelevant _ _ ai_profile ai_profile rfl rfl rfl
